import Mathlib

/-!
# Verification of the ARIA research-assistant backend

Shallow embedding of the storage adapters (`database.py`, `mongodb_service.py`,
`dynamodb_service.py`), the storage facade (`storage_manager.py`) and the
research/chat pipeline helpers (`api/main.py`, `backend/main.py`), together
with theorems settling the frozen claims about them.

Python dictionaries are modelled as association lists over an inductive value
type; timestamps produced by `datetime.now()` are passed in as explicit
parameters; the external search and model collaborators are parameters of the
functions that call them.
-/

set_option maxHeartbeats 1000000

namespace Aria

/-- JSON-ish Python values stored in the per-session records: strings, lists
and `None`.  This is the value universe actually used by the repository's
session / search-history / saved-research dictionaries. -/
inductive Val where
  | vs (s : String)
  | vl (xs : List Val)
  | vnull

mutual

/-- Structural equality on values (Python `==` on these shapes). -/
def Val.beq : Val → Val → Bool
  | Val.vs a, Val.vs b => a == b
  | Val.vl xs, Val.vl ys => Val.beqList xs ys
  | Val.vnull, Val.vnull => true
  | _, _ => false

def Val.beqList : List Val → List Val → Bool
  | [], [] => true
  | x :: xs, y :: ys => Val.beq x y && Val.beqList xs ys
  | _, _ => false

end

instance : BEq Val := ⟨Val.beq⟩

/-- Python `v == s` for a looked-up dict value against a string: true only when
the value is present and is that string (a missing field compares as `None`,
which never equals a string). -/
def isStr (v : Option Val) (s : String) : Bool :=
  match v with
  | some (Val.vs x) => x == s
  | _ => false

/-- The looked-up value is present and is the empty list. -/
def isEmptyList (v : Option Val) : Bool :=
  match v with
  | some (Val.vl []) => true
  | _ => false

/-- A Python dict with string keys, as an association list (insertion order
preserved, keys unique in every state reachable from the code). -/
abbrev Rec := List (String × Val)

/-- `d.get(k)` on a Python dict: value of the first binding of `k`. -/
def dictGet {A : Type} : List (String × A) → String → Option A
  | [], _ => Option.none
  | (k', v) :: rest, k => if k' == k then some v else dictGet rest k

/-- `d[k] = v` on a Python dict: replace the binding in place, or append a new
one when the key is absent. -/
def dictSet {A : Type} : List (String × A) → String → A → List (String × A)
  | [], k, v => [(k, v)]
  | (k', v') :: rest, k, v =>
      if k' == k then (k, v) :: rest else (k', v') :: dictSet rest k v

/-- `del d[k]` on a Python dict (on key-unique maps this removes exactly the
one binding of `k`). -/
def dictDel {A : Type} (m : List (String × A)) (k : String) : List (String × A) :=
  m.filter (fun p => !(p.1 == k))

/-- `item.get(k)` on a record. -/
def recGet (r : Rec) (k : String) : Option Val :=
  dictGet r k

/-- `{**a, **b}`-style merge: start from `a` and write every binding of `b`. -/
def pyMerge (a b : Rec) : Rec :=
  b.foldl (fun acc kv => dictSet acc kv.1 kv.2) a

/-- Remove the first element satisfying `p` (the semantics of a Mongo
`delete_one`). -/
def removeFirst {A : Type} (p : A → Bool) : List A → List A
  | [] => []
  | x :: xs => if p x then xs else x :: removeFirst p xs

/-- Optional `user_id` as it is stored by `create_session` (Python `None`
becomes a stored `null`). -/
def optV : Option String → Val
  | Option.none => Val.vnull
  | some u => Val.vs u

/-! ## File backend (`backend/database.py`)

The module-level dictionaries `research_sessions`, `search_history` and
`saved_research`; the mirror-to-disk writes (`save_data_to_file`) have no
observable effect on the in-memory state and are omitted. -/

structure FileDB where
  sessions : List (String × Rec)
  searchHistory : List (String × List Rec)
  savedResearch : List (String × List Rec)

def fileEmpty : FileDB := ⟨[], [], []⟩

/-- `database.create_session` (database.py lines 76-87). -/
def file_create_session (db : FileDB) (sid : String) (uid : Option String)
    (now : String) : FileDB × Rec :=
  let session : Rec :=
    [("session_id", Val.vs sid), ("user_id", optV uid),
     ("created_at", Val.vs now), ("updated_at", Val.vs now),
     ("research_history", Val.vl []), ("conversation_history", Val.vl [])]
  let sessions := dictSet db.sessions sid session
  ({ db with sessions := sessions }, session)

/-- `database.get_session`. -/
def file_get_session (db : FileDB) (sid : String) : Option Rec :=
  dictGet db.sessions sid

/-- `database.delete_session` (database.py lines 98-107): removes the session
and the search-history and saved-research entries indexed under `sid`. -/
def file_delete_session (db : FileDB) (sid : String) : FileDB :=
  { sessions := dictDel db.sessions sid,
    searchHistory := dictDel db.searchHistory sid,
    savedResearch := dictDel db.savedResearch sid }

/-- `database.get_search_history`: `search_history.get(sid, [])`. -/
def file_get_search_history (db : FileDB) (sid : String) : List Rec :=
  (dictGet db.searchHistory sid).getD []

/-- `database.get_saved_research`. -/
def file_get_saved_research (db : FileDB) (sid : String) : List Rec :=
  (dictGet db.savedResearch sid).getD []

/-- `database.delete_saved_research` (database.py lines 127-133): keeps only
the items whose `"query"` field differs from `query`. -/
def file_delete_saved_research (db : FileDB) (sid q : String) : FileDB :=
  match dictGet db.savedResearch sid with
  | some items =>
      let kept := items.filter (fun it => !(isStr (recGet it "query") q))
      { db with savedResearch := dictSet db.savedResearch sid kept }
  | Option.none => db

/-! ## Document-store backend (`backend/mongodb_service.py`)

The three collections; `database is None` (not connected) is the `none` case
of `MongoDB`.  The server-generated `_id` field is not modelled. -/

structure MongoStore where
  sessions : List Rec
  searchHistory : List Rec
  savedResearch : List Rec

abbrev MongoDB := Option MongoStore

def sidMatches (sid : String) (d : Rec) : Bool :=
  isStr (recGet d "session_id") sid

/-- `mongodb_service.create_session` (lines 66-81): raises when not connected,
otherwise inserts the fresh session document. -/
def mongo_create_session (db : MongoDB) (sid : String) (uid : Option String)
    (now : String) : Except String (MongoDB × Rec) :=
  match db with
  | Option.none => Except.error "MongoDB not connected"
  | some ms =>
      let session : Rec :=
        [("session_id", Val.vs sid), ("user_id", optV uid),
         ("created_at", Val.vs now), ("updated_at", Val.vs now),
         ("research_history", Val.vl []), ("conversation_history", Val.vl [])]
      let sessions := ms.sessions ++ [session]
      Except.ok (some { ms with sessions := sessions }, session)

/-- `mongodb_service.get_session` (lines 83-89): `find_one` returns the first
document whose `session_id` matches. -/
def mongo_get_session (db : MongoDB) (sid : String) : Option Rec :=
  match db with
  | Option.none => Option.none
  | some ms => ms.sessions.find? (sidMatches sid)

/-- `mongodb_service.delete_session` (lines 102-111): `delete_one` on the
sessions collection, `delete_many` on search history and saved research. -/
def mongo_delete_session (db : MongoDB) (sid : String) : MongoDB :=
  match db with
  | Option.none => Option.none
  | some ms =>
      some { sessions := removeFirst (sidMatches sid) ms.sessions,
             searchHistory := ms.searchHistory.filter (fun d => !(sidMatches sid d)),
             savedResearch := ms.savedResearch.filter (fun d => !(sidMatches sid d)) }

/-- BSON type rank used by the sort comparator (null sorts before strings
before arrays); only string timestamps occur in reachable states. -/
def tsRank : Option Val → Nat
  | Option.none => 0
  | some Val.vnull => 0
  | some (Val.vs _) => 1
  | some (Val.vl _) => 2

def tsLt (a b : Option Val) : Bool :=
  tsRank a < tsRank b ||
    (tsRank a == tsRank b &&
      match a, b with
      | some (Val.vs x), some (Val.vs y) => decide (x < y)
      | _, _ => false)

def tsKey (d : Rec) : Option Val := recGet d "timestamp"

/-- Stable insertion of `x` into a descending-sorted list. -/
def insertDesc (x : Rec) : List Rec → List Rec
  | [] => [x]
  | y :: ys => if tsLt (tsKey x) (tsKey y) then y :: insertDesc x ys else x :: y :: ys

/-- `.sort("timestamp", -1)`: stable descending sort by the timestamp field. -/
def sortDescByTs : List Rec → List Rec
  | [] => []
  | x :: xs => insertDesc x (sortDescByTs xs)

/-- `mongodb_service.get_search_history` (lines 122-131). -/
def mongo_get_search_history (db : MongoDB) (sid : String) : List Rec :=
  match db with
  | Option.none => []
  | some ms => sortDescByTs (ms.searchHistory.filter (sidMatches sid))

/-- `mongodb_service.get_saved_research` (lines 142-156); the `_id`
stringification is not modelled. -/
def mongo_get_saved_research (db : MongoDB) (sid : String) : List Rec :=
  match db with
  | Option.none => []
  | some ms => sortDescByTs (ms.savedResearch.filter (sidMatches sid))

/-- `mongodb_service.delete_saved_research` (lines 158-166): a `delete_one`
with filter `{session_id, query}` — it removes at most one document. -/
def mongo_delete_saved_research (db : MongoDB) (sid q : String) : MongoDB :=
  match db with
  | Option.none => Option.none
  | some ms =>
      let kept := removeFirst
        (fun d => sidMatches sid d && isStr (recGet d "query") q)
        ms.savedResearch
      some { ms with savedResearch := kept }

/-! ## Key-value backend (`backend/lambda_package/dynamodb_service.py`)

DynamoDB tables; the sessions table is keyed by `session_id` and the
saved-research table by the `(session_id, query)` pair (`delete_item`'s `Key`
arguments); `put_item` replaces the item bearing the same key. -/

structure DynDB where
  sessions : List Rec
  searchHistory : List Rec
  savedResearch : List Rec

def dynEmpty : DynDB := ⟨[], [], []⟩

def savedKeyMatches (sid q : String) (d : Rec) : Bool :=
  sidMatches sid d && isStr (recGet d "query") q

/-- `dynamodb_service._create_session` (lines 19-25): the stored item holds
only `session_id` (plus `user_id` when truthy) — no history fields. -/
def dyn_create_session (db : DynDB) (sid : String) (uid : Option String) :
    DynDB × Rec :=
  let item : Rec :=
    match uid with
    | some u => if u == "" then [("session_id", Val.vs sid)]
                else [("session_id", Val.vs sid), ("user_id", Val.vs u)]
    | Option.none => [("session_id", Val.vs sid)]
  let sessions := db.sessions.filter (fun d => !(sidMatches sid d)) ++ [item]
  ({ db with sessions := sessions }, item)

/-- `dynamodb_service._get_session` (lines 31-34). -/
def dyn_get_session (db : DynDB) (sid : String) : Option Rec :=
  db.sessions.find? (sidMatches sid)

/-- `dynamodb_service._delete_session` (lines 50-52): deletes only the session
item; the search-history and saved-research tables are untouched. -/
def dyn_delete_session (db : DynDB) (sid : String) : DynDB :=
  { db with sessions := db.sessions.filter (fun d => !(sidMatches sid d)) }

/-- `dynamodb_service._get_search_history` (lines 68-71): a key-condition
query on `session_id`. -/
def dyn_get_search_history (db : DynDB) (sid : String) : List Rec :=
  db.searchHistory.filter (sidMatches sid)

/-- `dynamodb_service._get_saved_research` (lines 87-90). -/
def dyn_get_saved_research (db : DynDB) (sid : String) : List Rec :=
  db.savedResearch.filter (sidMatches sid)

/-- `dynamodb_service._save_research` (lines 78-81): `put_item` of
`{"session_id": sid, **research_data}`, replacing the item with the same
`(session_id, query)` key. -/
def dyn_save_research (db : DynDB) (sid : String) (data : Rec) : DynDB :=
  let item := pyMerge [("session_id", Val.vs sid)] data
  let sidv := recGet item "session_id"
  let qv := recGet item "query"
  let tbl := db.savedResearch.filter
    (fun d => !(recGet d "session_id" == sidv && recGet d "query" == qv)) ++ [item]
  { db with savedResearch := tbl }

/-- `dynamodb_service._delete_saved_research` (lines 96-98): `delete_item`
with key `(session_id, query)`. -/
def dyn_delete_saved_research (db : DynDB) (sid q : String) : DynDB :=
  { db with savedResearch :=
      db.savedResearch.filter (fun d => !(savedKeyMatches sid q d)) }

/-! ## Storage facade (`backend/lambda_package/storage_manager.py`)

The `StorageManager` configuration fixed at process start: whether the
document-store module imported (`mongo_service is not None`), the
`use_mongodb` flag (forced off when the import failed), and whether the
key-value module imported.  `file_service` is created only when
`not use_mongodb and not dynamo_service` held in `__init__`.

The per-backend calls are parameters (`Except.error` standing for a raised
exception), so the facade's catch/collect behaviour is quantified over every
possible backend outcome. -/

structure SMConfig where
  mongoService : Bool
  useMongodb : Bool
  dynamoService : Bool

def SMConfig.hasFileService (c : SMConfig) : Bool :=
  !c.useMongodb && !c.dynamoService

/-- `StorageManager.get_session` (storage_manager.py lines 105-123): query each
available backend inside try/except; query the file service only when the
results dict is still empty and `file_service` exists.  Returns the
backend-keyed result mapping and the collected error strings. -/
def sm_get_session (cfg : SMConfig)
    (mongoGet dynGet : Except String (Option Rec)) (fileGet : Option Rec) :
    List (String × Option Rec) × List String :=
  let mr : List (String × Option Rec) × List String :=
    if cfg.mongoService then
      match mongoGet with
      | Except.ok v => ([("mongodb", v)], [])
      | Except.error e => ([], ["MongoDB: " ++ e])
    else ([], [])
  let dr : List (String × Option Rec) × List String :=
    if cfg.dynamoService then
      match dynGet with
      | Except.ok v => ([("dynamodb", v)], [])
      | Except.error e => ([], ["DynamoDB: " ++ e])
    else ([], [])
  let results := mr.1 ++ dr.1
  let results :=
    if results.isEmpty && cfg.hasFileService then results ++ [("file", fileGet)]
    else results
  (results, mr.2 ++ dr.2)

/-- `StorageManager.create_session` (lines 85-103): same fan-out/catch shape,
collecting each backend's created record. -/
def sm_create_session (cfg : SMConfig)
    (mongoCreate dynCreate : Except String Rec) (fileCreate : Rec) :
    List (String × Rec) × List String :=
  let mr : List (String × Rec) × List String :=
    if cfg.mongoService then
      match mongoCreate with
      | Except.ok v => ([("mongodb", v)], [])
      | Except.error e => ([], ["MongoDB: " ++ e])
    else ([], [])
  let dr : List (String × Rec) × List String :=
    if cfg.dynamoService then
      match dynCreate with
      | Except.ok v => ([("dynamodb", v)], [])
      | Except.error e => ([], ["DynamoDB: " ++ e])
    else ([], [])
  let results := mr.1 ++ dr.1
  let results :=
    if results.isEmpty && cfg.hasFileService then results ++ [("file", fileCreate)]
    else results
  (results, mr.2 ++ dr.2)

/-- Common body of the five result-less mutating operations
(`update_session`, `delete_session`, `add_search_history`, `save_research`,
`delete_saved_research`, storage_manager.py lines 125-246, five verbatim
copies in the source): run the operation against each available backend
inside try/except — a failing backend leaves its state unchanged and
contributes an error string — and run the file service only when neither
backend module is present and `file_service` exists. -/
def smMutate {α β γ : Type} (cfg : SMConfig)
    (mongoOp : α → Except String α) (dynOp : β → Except String β)
    (fileOp : γ → γ) (ma : α) (da : β) (fa : γ) :
    (α × β × γ) × List String :=
  let mr : α × List String :=
    if cfg.mongoService then
      match mongoOp ma with
      | Except.ok a => (a, [])
      | Except.error e => (ma, ["MongoDB: " ++ e])
    else (ma, [])
  let dr : β × List String :=
    if cfg.dynamoService then
      match dynOp da with
      | Except.ok b => (b, [])
      | Except.error e => (da, ["DynamoDB: " ++ e])
    else (da, [])
  let fa2 :=
    if !(cfg.mongoService || cfg.dynamoService) && cfg.hasFileService then fileOp fa
    else fa
  ((mr.1, dr.1, fa2), mr.2 ++ dr.2)

def sm_update_session {α β γ : Type} (cfg : SMConfig)
    (mongoOp : α → Except String α) (dynOp : β → Except String β)
    (fileOp : γ → γ) (ma : α) (da : β) (fa : γ) : (α × β × γ) × List String :=
  smMutate cfg mongoOp dynOp fileOp ma da fa

def sm_delete_session {α β γ : Type} (cfg : SMConfig)
    (mongoOp : α → Except String α) (dynOp : β → Except String β)
    (fileOp : γ → γ) (ma : α) (da : β) (fa : γ) : (α × β × γ) × List String :=
  smMutate cfg mongoOp dynOp fileOp ma da fa

def sm_add_search_history {α β γ : Type} (cfg : SMConfig)
    (mongoOp : α → Except String α) (dynOp : β → Except String β)
    (fileOp : γ → γ) (ma : α) (da : β) (fa : γ) : (α × β × γ) × List String :=
  smMutate cfg mongoOp dynOp fileOp ma da fa

def sm_save_research {α β γ : Type} (cfg : SMConfig)
    (mongoOp : α → Except String α) (dynOp : β → Except String β)
    (fileOp : γ → γ) (ma : α) (da : β) (fa : γ) : (α × β × γ) × List String :=
  smMutate cfg mongoOp dynOp fileOp ma da fa

def sm_delete_saved_research {α β γ : Type} (cfg : SMConfig)
    (mongoOp : α → Except String α) (dynOp : β → Except String β)
    (fileOp : γ → γ) (ma : α) (da : β) (fa : γ) : (α × β × γ) × List String :=
  smMutate cfg mongoOp dynOp fileOp ma da fa

/-! ## Character/string helpers shared by the pipeline embedding -/

/-- Python `str.strip()` whitespace set (ASCII). -/
def pyIsSpace (c : Char) : Bool :=
  c == ' ' || c == '\t' || c == '\n' || c == '\r' ||
    c == Char.ofNat 11 || c == Char.ofNat 12

/-- `str.strip()` on a character list. -/
def pyStripL (l : List Char) : List Char :=
  ((l.dropWhile pyIsSpace).reverse.dropWhile pyIsSpace).reverse

/-- `str.strip()` on a string. -/
def pyStripWs (s : String) : String :=
  String.mk (pyStripL s.data)

/-- `str.strip(chars)`: remove the leading and trailing characters belonging
to `cs`. -/
def stripCharsL (cs l : List Char) : List Char :=
  ((l.dropWhile (cs.contains ·)).reverse.dropWhile (cs.contains ·)).reverse

/-- `s.split("\n")` on a character list (no collapsing, keeps empty parts). -/
def splitNl : List Char → List (List Char)
  | [] => [[]]
  | c :: t =>
      if c == '\n' then [] :: splitNl t
      else
        match splitNl t with
        | h :: r => (c :: h) :: r
        | [] => [[c]]

/-! ## Model-call primitive (`generate_llm_response`, api/main.py lines
362-377 and backend/main.py lines 187-202)

The OpenAI client call is a parameter; `Except.error` is a raised
transport/API exception, `Except.ok` a response object. -/

structure ApiMsg where
  role : String
  content : String

structure ApiChatMsg where
  content : Option String

structure ApiChoice where
  message : Option ApiChatMsg

structure ApiResp where
  choices : List ApiChoice

/-- The truthiness cascade and the strip/fallback of `generate_llm_response`;
the single API call is made exactly once and an exception is re-raised as an
`HTTPException` (modelled as the error string), never retried. -/
def generate_llm_response (api : List ApiMsg → ℚ → Nat → Except String ApiResp)
    (messages : List ApiMsg) (temperature : ℚ) (maxTokens : Nat) :
    Except String String :=
  match api messages temperature maxTokens with
  | Except.error e => Except.error ("OpenAI API error: " ++ e)
  | Except.ok resp =>
      match resp.choices with
      | [] => Except.ok "No response generated."
      | c :: _ =>
          match c.message with
          | Option.none => Except.ok "No response generated."
          | some m =>
              match m.content with
              | Option.none => Except.ok "No response generated."
              | some content =>
                  if content == "" then Except.ok "No response generated."
                  else Except.ok (pyStripWs content)

/-- The shared system prompt (api/main.py lines 47-215; literal prose
abbreviated — no claim inspects it). -/
def systemPromptMsg : ApiMsg :=
  { role := "system",
    content := "You are ARIA (Academic Research Intelligence Assistant), a specialized AI designed for scholarly research, comprehensive analysis, and academic excellence." }

/-! ## Chat-turn message construction (`chat_with_aria`, api/main.py lines
1103-1112 and backend/main.py lines 491-503, identical logic)

A history entry is a caller-supplied dict, so both fields may be absent. -/

structure HistMsg where
  role : Option String
  content : Option String

/-- `msg.get("role") in ("user", "ai") and msg.get("content")`. -/
def histKeep (m : HistMsg) : Bool :=
  (m.role == some "user" || m.role == some "ai") &&
    (match m.content with
     | some c => !(c == "")
     | Option.none => false)

/-- `{"role": "assistant" if msg["role"] == "ai" else "user", "content": msg["content"]}`. -/
def histMap (m : HistMsg) : ApiMsg :=
  { role := if m.role == some "ai" then "assistant" else "user",
    content := m.content.getD "" }

/-- The explicit-history branch of `chat_with_aria`: replay the kept history
entries after the system prompt, then append the new user message unless the
list already ends with an identical user message. -/
def buildChatMessages (sys : ApiMsg) (history : List HistMsg) (message : String) :
    List ApiMsg :=
  let messages := history.foldl
    (fun acc m => if histKeep m then acc ++ [histMap m] else acc) [sys]
  let endsWithNew :=
    match messages.getLast? with
    | some last => last.role == "user" && last.content == message
    | Option.none => false
  if endsWithNew then messages else messages ++ [{ role := "user", content := message }]

/-! ## Article fetching (`PlanningAgent.fetch_articles`, api/main.py lines
295-320)

`data.get("organic_results", [])` is passed in as the list of raw result
items (dicts); `today` is the formatted current date used by the `published`
default. -/

structure Article where
  title : Val
  link : Val
  author : Val
  published : Val
  snippet : Val

/-- `item.get(k, default)`: the default applies only when the key is absent. -/
def itemGet (it : Rec) (k : String) (dflt : Val) : Val :=
  (recGet it k).getD dflt

def mkArticle (today : String) (it : Rec) : Article :=
  { title := itemGet it "title" (Val.vs "No Title"),
    link := itemGet it "link" (Val.vs "No URL"),
    author := itemGet it "source" (Val.vs "Unknown Source"),
    published := itemGet it "date" (Val.vs ("Accessed on " ++ today)),
    snippet := itemGet it "snippet" (Val.vs "") }

/-- `PlanningAgent.fetch_articles`: one search call, the first `num_results`
organic results mapped to article dicts — no query reformulation and no
deduplication by link. -/
def fetch_articles (today : String) (organic : List Rec) (numResults : Nat) :
    List Article :=
  (organic.take numResults).map (mkArticle today)

/-- Number of fetched articles carrying the link `l`. -/
def countLink (articles : List Article) (l : String) : Nat :=
  (articles.filter (fun a =>
    match a.link with
    | Val.vs x => x == l
    | _ => false)).length

/-! ## `ComparisonAgent.compare_and_extract` (api/main.py lines 541-683) and
`full_research` (lines 1242-1264)

The user prompt is an f-string that interpolates, in textual order, the names
`search_query` and `report_topic` (lines 555-556) and then `articles_text`
(line 673).  Name resolution is modelled by an environment `env` mapping an
in-scope name to its rendered value; the names actually in scope at that
point in the source are enumerated below, and any environment supported on
them lacks both `search_query` and `report_topic`, so evaluation raises
`NameError: name 'search_query' is not defined` before the model call. -/

/-- Names visible inside `ComparisonAgent.compare_and_extract`: its locals and
the module-level bindings of `api/main.py` (imports, globals, classes,
functions, endpoints). -/
def compareAndExtractScopeNames : List String :=
  ["self", "articles", "articles_text",
   "FastAPI", "HTTPException", "Depends", "Query", "Body", "CORSMiddleware",
   "BaseModel", "Field", "List", "Optional", "Dict", "Any", "requests",
   "BeautifulSoup", "openai", "datetime", "json", "uuid", "asynccontextmanager",
   "os", "load_dotenv", "traceback", "re", "TextBlob", "Mangum",
   "ResearchSession", "SearchHistoryEntry", "SavedResearch",
   "SavedResearchSection", "ResearchRequest", "ChatRequest", "SessionRequest",
   "ResearchResult", "ResearchResponse", "ChatResponse", "SessionInfo",
   "SearchHistoryResponse", "SavedResearchResponse", "SaveResearchRequest",
   "storage_manager", "SERPAPI_KEY", "OPENAI_API_KEY", "chat_sessions",
   "system_prompt", "ChatSession", "lifespan", "app", "PlanningAgent",
   "search_serpapi", "get_article_text", "generate_llm_response",
   "generate_summary", "generate_notes", "generate_key_insights",
   "generate_suggestions", "generate_reflecting_questions", "generate_report",
   "ComparisonAgent", "ReportGenerationAgent", "get_or_create_session",
   "root", "health_check", "create_or_get_session", "get_session",
   "list_sessions", "conduct_research", "chat_with_aria",
   "get_search_history", "save_research_section", "get_saved_research",
   "delete_saved_research", "delete_session", "get_all_saved_research",
   "get_all_search_history", "FullResearchRequest", "FullResearchResponse",
   "full_research", "handler",
   "print", "len", "str", "int", "float", "bool", "list", "dict", "set",
   "tuple", "range", "isinstance", "hasattr", "getattr", "Exception"]

/-- An environment is scoped when it binds only names visible at that point of
the source. -/
def ScopedEnv (env : String → Option String) : Prop :=
  ∀ n s, env n = some s → n ∈ compareAndExtractScopeNames

/-- Python `str()` of a stored value as used in f-string interpolation (the
list rendering is abbreviated; no claim inspects it). -/
def valFormat : Val → String
  | Val.vs s => s
  | Val.vnull => "None"
  | Val.vl _ => "[...]"

/-- The comparison prompt (literal prose abbreviated; the interpolation order
`search_query`, `report_topic`, `articles_text` is the source's). -/
def compareExtractPromptText (sq rt ats : String) : String :=
  "TASK: Advanced Article Comparison and Relevance Extraction for Report Generation SEARCH CONTEXT: Research Query: "
    ++ sq ++ " Report Topic: " ++ rt ++ " ARTICLES TO ANALYZE: " ++ ats

/-- `ComparisonAgent.compare_and_extract`: build `articles_text`, evaluate the
prompt f-string (which interpolates `search_query` and `report_topic`), call
the model once, return `{"relevant_summary": summary}`. -/
def compare_and_extract (env : String → Option String)
    (api : List ApiMsg → ℚ → Nat → Except String ApiResp)
    (articles : List Article) : Except String (List (String × String)) :=
  let articles_text := String.intercalate "\n\n" (articles.map (fun a =>
    "Title: " ++ valFormat a.title ++ "\nSnippet: " ++ valFormat a.snippet))
  match env "search_query" with
  | Option.none => Except.error "NameError: name search_query is not defined"
  | some sq =>
      match env "report_topic" with
      | Option.none => Except.error "NameError: name report_topic is not defined"
      | some rt =>
          let user_prompt := compareExtractPromptText sq rt articles_text
          match generate_llm_response api
              [systemPromptMsg, { role := "user", content := user_prompt }]
              (0.3 : ℚ) 600 with
          | Except.error e => Except.error e
          | Except.ok summary => Except.ok [("relevant_summary", summary)]

/-- `re.sub` of a leading `\s*#+\s*` on one line (`ReportGenerationAgent.clean_report`). -/
def cleanLine (l : List Char) : List Char :=
  let rest := l.dropWhile pyIsSpace
  match rest with
  | '#' :: _ => (rest.dropWhile (fun c => c == '#')).dropWhile pyIsSpace
  | _ => l

/-- Collapse runs of three or more newlines to two (`re.sub(r'\n..,,', ...)`
in `clean_report`); `pending` counts the newlines seen so far. -/
def collapseNl : List Char → Nat → List Char
  | [], pending => List.replicate (min pending 2) '\n'
  | c :: t, pending =>
      if c == '\n' then collapseNl t (pending + 1)
      else List.replicate (min pending 2) '\n' ++ c :: collapseNl t 0

/-- `ReportGenerationAgent.clean_report` (api/main.py lines 690-698). -/
def clean_report (report : String) : String :=
  let cleaned := (splitNl report.data).map cleanLine
  String.mk (pyStripL (collapseNl (List.intercalate ['\n'] cleaned) 0))

/-- `ReportGenerationAgent.generate_structured_report` (lines 700-784; prompt
prose abbreviated): one model call, then `clean_report`. -/
def generate_structured_report (api : List ApiMsg → ℚ → Nat → Except String ApiResp)
    (relevant_data topic : String) : Except String String :=
  let user_prompt :=
    "TASK: Comprehensive Academic Report Generation RESEARCH TOPIC: " ++ topic
      ++ " RELEVANT DATA AND INFORMATION: " ++ relevant_data
  match generate_llm_response api
      [systemPromptMsg, { role := "user", content := user_prompt }]
      (0.3 : ℚ) 900 with
  | Except.error e => Except.error e
  | Except.ok report => Except.ok (clean_report report)

structure FullResearchOut where
  articles : List Article
  relevant_summary : String
  structured_report : String

/-- `full_research` (api/main.py lines 1242-1264): fetch once (the request's
`num_results`, default 20), 404 on empty, then Agent 2 and Agent 3. -/
def full_research (env : String → Option String)
    (api : List ApiMsg → ℚ → Nat → Except String ApiResp)
    (today : String) (organic : List Rec) (query : String) (numResults : Nat) :
    Except String FullResearchOut :=
  let articles := fetch_articles today organic numResults
  if articles.isEmpty then Except.error "404: No articles found for the query."
  else
    match compare_and_extract env api articles with
    | Except.error e => Except.error e
    | Except.ok relevant =>
        let relevant_summary := (dictGet relevant "relevant_summary").getD ""
        match generate_structured_report api relevant_summary query with
        | Except.error e => Except.error e
        | Except.ok structured_report =>
            Except.ok ⟨articles, relevant_summary, structured_report⟩

/-! ## Suggestion extraction (`generate_suggestions`, api/main.py lines
462-486 and backend/main.py lines 287-312, identical logic)

First tier: `re.findall` of the pattern
`\*\*Research Question \d+:\*\*\s*(.+?)(?=\n\*\*Rationale|$)` under
`re.DOTALL`.  The scanner below is that pattern made operational:

* the literal head, a greedy digit run that must be followed by `:**`
  (giving back digits can never help because a digit is not `:`);
* `\s*` takes the maximal whitespace run; the lazy `(.+?)` then stops at the
  first position whose suffix starts with `\n**Rationale`, is the end of the
  string, or is a final newline (Python `$`); since the end of the string is
  always a valid stop, `\s*` backtracks by exactly one character only when it
  consumed the entire rest of the string (and fails when nothing at all
  follows `:**`);
* scanning resumes at the end of the group (the lookahead is zero-width) and
  otherwise advances one character.

Second tier (when every first-tier match strips to nothing): line splitting
with the bullet/number strip and the 20-character filter. -/

/-- The literal head of the pattern, `"**Research Question "`. -/
def rqMarker : List Char :=
  ['*', '*', 'R', 'e', 's', 'e', 'a', 'r', 'c', 'h', ' ',
   'Q', 'u', 'e', 's', 't', 'i', 'o', 'n', ' ']

/-- The lookahead literal, `"\n**Rationale"`. -/
def rationaleMarker : List Char :=
  ['\n', '*', '*', 'R', 'a', 't', 'i', 'o', 'n', 'a', 'l', 'e']

/-- Consume the literal pattern `p` from the front of `s`. -/
def chop : List Char → List Char → Option (List Char)
  | [], s => some s
  | _ :: _, [] => Option.none
  | p :: ps, c :: cs => if p == c then chop ps cs else Option.none

/-- A valid stop position for the lazy group: the suffix from here starts the
rationale block, or is the `$` position (end, or a final newline). -/
def rqStop (t : List Char) : Bool :=
  rationaleMarker.isPrefixOf t || t.isEmpty ||
    (match t with
     | [c] => c == '\n'
     | _ => false)

/-- Minimal non-empty group prefix ending at a valid stop (falling back to the
whole list when no interior stop exists, which matches stopping at the end). -/
def takeUntilStop : List Char → (List Char × List Char)
  | [] => ([], [])
  | c :: t =>
      if rqStop t then ([c], t)
      else
        let gr := takeUntilStop t
        (c :: gr.1, gr.2)

/-- After `:**`: the `\s*` span and the lazy group (with the one-character
give-back when the whitespace ran to the end of the string). -/
def matchGroup (s3 : List Char) : Option (List Char × List Char) :=
  match s3.dropWhile pyIsSpace with
  | c :: t => some (takeUntilStop (c :: t))
  | [] =>
      match (s3.takeWhile pyIsSpace).getLast? with
      | some c => some ([c], [])
      | Option.none => Option.none

/-- After the digits: the literal `:**`. -/
def matchColon (s2 : List Char) : Option (List Char × List Char) :=
  match chop [':', '*', '*'] s2 with
  | Option.none => Option.none
  | some s3 => matchGroup s3

/-- After the literal head: the `\d+` run (giving digits back can never
produce a `:`, so only the full greedy run is viable). -/
def matchDigits (s1 : List Char) : Option (List Char × List Char) :=
  if (s1.takeWhile Char.isDigit).isEmpty then Option.none
  else matchColon (s1.dropWhile Char.isDigit)

/-- Try the whole pattern at the current position; on success return the
captured group and the remainder of the string after the match. -/
def matchAt (s : List Char) : Option (List Char × List Char) :=
  match chop rqMarker s with
  | Option.none => Option.none
  | some s1 => matchDigits s1

/-- Fuelled left-to-right non-overlapping scan (`re.findall`); the fuel
strictly exceeds the number of scan steps when it exceeds the length. -/
def scanRQ : Nat → List Char → List (List Char)
  | 0, _ => []
  | _ + 1, [] => []
  | fuel + 1, c :: t =>
      match matchAt (c :: t) with
      | some gr => gr.1 :: scanRQ fuel gr.2
      | Option.none => scanRQ fuel t

/-- `re.findall(pattern, text, re.DOTALL)` for the suggestion pattern. -/
def findRQ (s : List Char) : List (List Char) :=
  scanRQ (s.length + 1) s

/-- The characters stripped by the fallback tier: `"•-0123456789. *"`. -/
def suggStripChars : List Char := "•-0123456789. *".data

/-- The fallback tier of `generate_suggestions`: split into lines, keep lines
that are non-blank and do not start with `**`, strip the bullet/number
characters from both ends, keep only results strictly longer than 20
characters. -/
def fallbackSuggestions (s : List Char) : List (List Char) :=
  let raw := splitNl s
  let sugg := raw.filterMap (fun line =>
    if !(pyStripL line).isEmpty && !(("**".data).isPrefixOf line) then
      some (stripCharsL suggStripChars line)
    else Option.none)
  sugg.filter (fun t => decide (20 < t.length))

/-- `[q.strip() for q in questions if q.strip()]`: the first tier's surviving
matches. -/
def firstTierSuggestions (s : List Char) : List (List Char) :=
  (findRQ s).filterMap (fun q =>
    let t := pyStripL q
    if t.isEmpty then Option.none else some t)

/-- The post-processing of `generate_suggestions` applied to the model
response text: structured tier first, line fallback when it yields nothing,
truncation to three items. -/
def parse_suggestions (s : List Char) : List (List Char) :=
  let suggestions := firstTierSuggestions s
  let suggestions :=
    if suggestions.isEmpty then fallbackSuggestions s else suggestions
  suggestions.take 3

/-- `generate_suggestions` itself: one model call, then the two-tier parse. -/
def generate_suggestions (api : List ApiMsg → ℚ → Nat → Except String ApiResp)
    (topic : String) : Except String (List String) :=
  let user_prompt :=
    "TASK: Academic Research Question Development PRIMARY RESEARCH TOPIC: "
      ++ topic ++ " Generate three research suggestions:"
  match generate_llm_response api
      [systemPromptMsg, { role := "user", content := user_prompt }]
      (0.4 : ℚ) 200 with
  | Except.error e => Except.error e
  | Except.ok text => Except.ok ((parse_suggestions text.data).map String.mk)

/-! ### Structured-markup generator used to state the first tier exactly -/

/-- `"**Research Question 1:** "`. -/
def rqHeader : List Char := rqMarker ++ ['1', ':', '*', '*', ' ']

/-- `"\n**Rationale:** "`. -/
def ratTail : List Char := rationaleMarker ++ [':', '*', '*', ' ']

/-- One structured block `**Research Question 1:** q\n**Rationale:** r\n`. -/
def rqBlock (qa : List Char × List Char) : List Char :=
  rqHeader ++ qa.1 ++ ratTail ++ qa.2 ++ ['\n']

/-- A fully structured model reply: one block per question/rationale pair. -/
def mkStructured (l : List (List Char × List Char)) : List Char :=
  l.foldr (fun qa acc => rqBlock qa ++ acc) []

def plainChar (c : Char) : Bool :=
  !(c == '\n') && !(c == '*')

/-- Well-formed structured content: each question is a non-empty single line
of plain text (no `*`), already trimmed (first and last characters are not
whitespace); each rationale is a single line of plain text. -/
def wfQA (l : List (List Char × List Char)) : Bool :=
  l.all (fun qa =>
    !qa.1.isEmpty && qa.1.all plainChar
      && !(pyIsSpace (qa.1.headD ' ')) && !(pyIsSpace (qa.1.reverse.headD ' '))
      && qa.2.all plainChar)

/-! ## Claim-side checkers (written from the claims' wording, to be compared
against the embedded code) -/

/-- C1's property of a `getSession` result: a record is returned, its
`session_id` is the requested one, and both history fields are present and
are empty sequences. -/
def c1Check (res : Option Rec) (sid : String) : Bool :=
  match res with
  | some r =>
      isStr (recGet r "session_id") sid
        && isEmptyList (recGet r "research_history")
        && isEmptyList (recGet r "conversation_history")
  | Option.none => false

/-- C9's "call succeeds but yields no content": empty choice list, missing
message, missing content, or empty content string. -/
def noContent (resp : ApiResp) : Bool :=
  match resp.choices with
  | [] => true
  | c :: _ =>
      match c.message with
      | Option.none => true
      | some m =>
          match m.content with
          | Option.none => true
          | some s => s == ""

/-- C4's replay of an explicit history: keep exactly the entries whose role is
`user` or `ai` with non-empty content, mapping `ai` to `assistant`. -/
def replayHistory (history : List HistMsg) : List ApiMsg :=
  (history.filter histKeep).map histMap

/-- The constructed list already ends with a user message carrying exactly the
new message text. -/
def endsWithNewUser (ms : List ApiMsg) (message : String) : Bool :=
  match ms.getLast? with
  | some last => last.role == "user" && last.content == message
  | Option.none => false

/-- Length of the maximal trailing run of user messages whose content equals
the new message (C4 claims this is exactly one). -/
def trailingUserCount (ms : List ApiMsg) (message : String) : Nat :=
  (ms.reverse.takeWhile (fun m => m.role == "user" && m.content == message)).length

/-- C7's per-backend state contract: an enabled backend's state after the
operation is its adapter's result when the adapter succeeds and is left
unchanged when the adapter raises (the exception is caught); a disabled
backend is untouched. -/
def c7NewState {α : Type} (enabled : Bool) (op : α → Except String α) (a : α) : α :=
  if enabled then
    match op a with
    | Except.ok a2 => a2
    | Except.error _ => a
  else a

/-- C7's collected diagnostics: an enabled backend whose adapter raises
contributes exactly its tagged message; a succeeding or disabled backend
contributes nothing. -/
def c7CaughtError {X : Type} (enabled : Bool) (tag : String) (r : Except String X) :
    List String :=
  if enabled then
    match r with
    | Except.ok _ => []
    | Except.error e => [tag ++ ": " ++ e]
  else []

/-- C7's file clause for the result-less mutating operations: the file
service runs exactly in the file-only configuration (no backend module
present and `file_service` created at startup). -/
def c7FileState {γ : Type} (cfg : SMConfig) (fileOp : γ → γ) (fa : γ) : γ :=
  if cfg.mongoService = false ∧ cfg.dynamoService = false ∧ cfg.hasFileService = true
  then fileOp fa else fa

/-- C7's result-map contract for `createSession`: an enabled backend whose
adapter succeeds contributes its keyed record; a raising or disabled backend
contributes nothing. -/
def c7OkEntry (enabled : Bool) (key : String) (r : Except String Rec) :
    List (String × Rec) :=
  if enabled then
    match r with
    | Except.ok v => [(key, v)]
    | Except.error _ => []
  else []

/-- C7's full `createSession` result map: the fan-out entries, with the file
record exactly when no enabled backend produced an entry and `file_service`
exists. -/
def c7CreateResults (cfg : SMConfig) (mc dc : Except String Rec) (fc : Rec) :
    List (String × Rec) :=
  let fanned := c7OkEntry cfg.mongoService "mongodb" mc
    ++ c7OkEntry cfg.dynamoService "dynamodb" dc
  if fanned.isEmpty && cfg.hasFileService then fanned ++ [("file", fc)] else fanned

/-- C3's fallback tier as the claim words it: split into lines, drop blank
lines and lines starting with `**`, strip the bullet/number/punctuation
characters, keep only results strictly longer than 20 characters. -/
def fallbackSpecLines (s : List Char) : List (List Char) :=
  (((splitNl s).filter (fun line =>
      !(pyStripL line).isEmpty && !(("**".data).isPrefixOf line))).map
    (stripCharsL suggStripChars)).filter (fun t => decide (20 < t.length))

/-! ## Dictionary and list lemmas -/

theorem dictGet_dictSet_self {A : Type} (m : List (String × A)) (k : String) (v : A) :
    dictGet (dictSet m k v) k = some v := by
  induction m with
  | nil => simp [dictSet, dictGet]
  | cons p rest ih =>
      obtain ⟨k1, v1⟩ := p
      by_cases h : k1 == k
      · simp [dictSet, h, dictGet]
      · simp [dictSet, h, dictGet, ih]

theorem dictGet_dictDel {A : Type} (m : List (String × A)) (k : String) :
    dictGet (dictDel m k) k = Option.none := by
  induction m with
  | nil => rfl
  | cons p rest ih =>
      obtain ⟨k1, v1⟩ := p
      by_cases h : k1 == k
      · simpa [dictDel, List.filter_cons, h] using ih
      · simpa [dictDel, List.filter_cons, h, dictGet] using ih

theorem find?_append_of_none {A : Type} (l₁ l₂ : List A) (p : A → Bool)
    (h : ∀ x ∈ l₁, p x = false) :
    (l₁ ++ l₂).find? p = l₂.find? p := by
  induction l₁ with
  | nil => rfl
  | cons a l ih =>
      have ha := h a (by simp)
      simp only [List.cons_append, List.find?_cons, ha]
      exact ih (fun x hx => h x (by simp [hx]))

theorem filter_not_all_false {A : Type} (l : List A) (p : A → Bool) :
    ∀ x ∈ l.filter (fun a => !(p a)), p x = false := by
  intro x hx
  have := List.of_mem_filter hx
  simpa using this

theorem filter_of_filter_not {A : Type} (l : List A) (p : A → Bool) :
    (l.filter (fun a => !(p a))).filter p = [] := by
  induction l with
  | nil => rfl
  | cons a l ih =>
      by_cases h : p a <;> simp [List.filter_cons, h, ih]

theorem find?_filter_not {A : Type} (l : List A) (p : A → Bool) :
    (l.filter (fun a => !(p a))).find? p = Option.none := by
  apply List.find?_eq_none.mpr
  intro x hx
  simp [filter_not_all_false l p x hx]

theorem removeFirst_eq_eraseP {A : Type} (p : A → Bool) (l : List A) :
    removeFirst p l = l.eraseP p := by
  induction l with
  | nil => rfl
  | cons a l ih =>
      by_cases h : p a <;> simp [removeFirst, h, List.eraseP_cons, ih]

theorem beq_some_vs_eq_isStr (x : Option Val) (s : String) :
    (x == some (Val.vs s)) = isStr x s := by
  cases x with
  | none => rfl
  | some v => cases v <;> rfl

theorem getLast?_append_singleton {A : Type} (l : List A) (a : A) :
    (l ++ [a]).getLast? = some a :=
  List.getLast?_concat l

/-! ## C1 — create then get returns a fresh session record -/

/-- C1 (counterexample): in the key-value backend, `createSession` followed by
`getSession` yields a record with no `research_history` or
`conversation_history` fields at all, so the claim's "both empty sequences"
fails there. -/
theorem C1_counterexample :
    c1Check (dyn_get_session (dyn_create_session dynEmpty "s1" Option.none).1 "s1") "s1"
      = false := by decide

/-- C1 (amended): for every session id, `createSession` immediately followed by
`getSession` returns, in the file and document-store backends, a record with
the matching `session_id` and empty `research_history` and
`conversation_history`; in the key-value backend the returned item has the
matching `session_id` but carries no history fields (the document-store case
assumes no document with that id pre-exists, which its unique index
enforces). -/
theorem C1_create_then_get (sid now : String) (uid : Option String)
    (fdb : FileDB) (ms : MongoStore) (ddb : DynDB)
    (hms : ∀ d ∈ ms.sessions, sidMatches sid d = false) :
    c1Check (file_get_session (file_create_session fdb sid uid now).1 sid) sid = true
    ∧ (∃ mdb r, mongo_create_session (some ms) sid uid now = Except.ok (mdb, r)
        ∧ c1Check (mongo_get_session mdb sid) sid = true)
    ∧ (∃ r, dyn_get_session (dyn_create_session ddb sid uid).1 sid = some r
        ∧ isStr (recGet r "session_id") sid = true
        ∧ (recGet r "research_history").isNone = true
        ∧ (recGet r "conversation_history").isNone = true) := by
  refine ⟨?_, ?_, ?_⟩
  · simp only [file_create_session, file_get_session, dictGet_dictSet_self]
    simp [c1Check, recGet, dictGet, isStr, isEmptyList]
  · refine ⟨_, _, rfl, ?_⟩
    simp only [mongo_get_session]
    rw [find?_append_of_none _ _ _ hms]
    simp [List.find?, sidMatches, recGet, dictGet, isStr, c1Check, isEmptyList]
  · simp only [dyn_get_session, dyn_create_session]
    rw [find?_append_of_none _ _ _ (filter_not_all_false _ _)]
    cases uid with
    | none =>
        refine ⟨[("session_id", Val.vs sid)], ?_, ?_, ?_, ?_⟩ <;>
          simp [List.find?, sidMatches, recGet, dictGet, isStr]
    | some u =>
        by_cases hu : u == ""
        · refine ⟨[("session_id", Val.vs sid)], ?_, ?_, ?_, ?_⟩ <;>
            simp [hu, List.find?, sidMatches, recGet, dictGet, isStr]
        · refine ⟨[("session_id", Val.vs sid), ("user_id", Val.vs u)], ?_, ?_, ?_, ?_⟩ <;>
            simp [hu, List.find?, sidMatches, recGet, dictGet, isStr]

/-- C1 (witness). -/
theorem C1_witness :
    c1Check (file_get_session (file_create_session fileEmpty "s1" Option.none "t0").1 "s1") "s1"
      = true :=
  (C1_create_then_get "s1" "t0" Option.none fileEmpty ⟨[], [], []⟩ dynEmpty
    (fun d hd => absurd hd (List.not_mem_nil d))).1

/-! ## C2 — deleteSession cascades -/

/-- C2 (counterexample): in the key-value backend, `deleteSession` removes only
the session item, so a search-history entry for that id is still returned
afterwards — the claim's "empty sequences in every configured backend"
fails. -/
theorem C2_counterexample :
    (dyn_get_search_history
        (dyn_delete_session
          ⟨[[("session_id", Val.vs "s1")]],
           [[("session_id", Val.vs "s1"), ("query", Val.vs "graphene")]], []⟩ "s1")
        "s1").isEmpty = false := by decide

/-- C2 (amended): after `deleteSession`, `getSearchHistory` and
`getSavedResearch` return empty sequences in the file and document-store
backends (the delete cascades there); in the key-value backend only the
session item is removed and both tables are untouched. -/
theorem C2_delete_session (sid : String) (fdb : FileDB) (mdb : MongoDB) (ddb : DynDB) :
    file_get_search_history (file_delete_session fdb sid) sid = []
    ∧ file_get_saved_research (file_delete_session fdb sid) sid = []
    ∧ mongo_get_search_history (mongo_delete_session mdb sid) sid = []
    ∧ mongo_get_saved_research (mongo_delete_session mdb sid) sid = []
    ∧ dyn_get_session (dyn_delete_session ddb sid) sid = Option.none
    ∧ dyn_get_search_history (dyn_delete_session ddb sid) sid
        = dyn_get_search_history ddb sid
    ∧ dyn_get_saved_research (dyn_delete_session ddb sid) sid
        = dyn_get_saved_research ddb sid := by
  refine ⟨?_, ?_, ?_, ?_, ?_, rfl, rfl⟩
  · simp [file_get_search_history, file_delete_session, dictGet_dictDel]
  · simp [file_get_saved_research, file_delete_session, dictGet_dictDel]
  · cases mdb with
    | none => rfl
    | some ms =>
        simp [mongo_get_search_history, mongo_delete_session, filter_of_filter_not,
          sortDescByTs]
  · cases mdb with
    | none => rfl
    | some ms =>
        simp [mongo_get_saved_research, mongo_delete_session, filter_of_filter_not,
          sortDescByTs]
  · simp [dyn_get_session, dyn_delete_session, find?_filter_not]

/-! ## C8 — deleteSavedResearch granularity -/

/-- C8 (counterexample): the document-store delete is a `delete_one`; with two
sections saved under the same `(session_id, query)`, one matching record
survives the delete — the claim's "removes every record … in the
document-store backend" fails. -/
theorem C8_counterexample :
    ((mongo_get_saved_research
        (mongo_delete_saved_research
          (some ⟨[], [],
            [[("session_id", Val.vs "s1"), ("query", Val.vs "q"),
              ("section_name", Val.vs "summary")],
             [("session_id", Val.vs "s1"), ("query", Val.vs "q"),
              ("section_name", Val.vs "notes")]]⟩)
          "s1" "q")
        "s1").filter (fun d => isStr (recGet d "query") "q")).isEmpty = false := by
  decide

/-- C8 (amended): `deleteSavedResearch (session_id, query)` removes every
record saved under that query in the file backend; in the document-store
backend it removes only the first matching record (`delete_one`); in the
key-value backend it removes exactly the items bearing that exact
`(session_id, query)` key — of which the table holds at most one, because
`saveResearch` is a `put_item` that replaces the same-keyed item. -/
theorem C8_delete_saved_research (sid q : String) (fdb : FileDB) (ms : MongoStore)
    (ddb : DynDB) (data : Rec) :
    (file_get_saved_research (file_delete_saved_research fdb sid q) sid).filter
        (fun it => isStr (recGet it "query") q) = []
    ∧ (mongo_delete_saved_research (some ms) sid q).map MongoStore.savedResearch
        = some (ms.savedResearch.eraseP
            (fun d => sidMatches sid d && isStr (recGet d "query") q))
    ∧ (mongo_delete_saved_research (some ms) sid q).map MongoStore.sessions
        = some ms.sessions
    ∧ (mongo_delete_saved_research (some ms) sid q).map MongoStore.searchHistory
        = some ms.searchHistory
    ∧ (dyn_delete_saved_research ddb sid q).savedResearch.filter
        (savedKeyMatches sid q) = []
    ∧ ((dyn_save_research ddb sid data).savedResearch.filter (fun d =>
          recGet d "session_id"
              == recGet (pyMerge [("session_id", Val.vs sid)] data) "session_id"
            && recGet d "query"
              == recGet (pyMerge [("session_id", Val.vs sid)] data) "query")).length
        ≤ 1 := by
  refine ⟨?_, ?_, ?_, ?_, ?_, ?_⟩
  · unfold file_delete_saved_research
    cases h : dictGet fdb.savedResearch sid with
    | none => simp [file_get_saved_research, h, List.filter]
    | some items =>
        simp [file_get_saved_research, dictGet_dictSet_self, filter_of_filter_not]
  · simp [mongo_delete_saved_research, removeFirst_eq_eraseP]
  · simp [mongo_delete_saved_research]
  · simp [mongo_delete_saved_research]
  · simp [dyn_delete_saved_research, filter_of_filter_not]
  · simp only [dyn_save_research, List.filter_append, filter_of_filter_not,
      List.nil_append]
    cases h : (fun d =>
        recGet d "session_id"
            == recGet (pyMerge [("session_id", Val.vs sid)] data) "session_id"
          && recGet d "query"
            == recGet (pyMerge [("session_id", Val.vs sid)] data) "query")
        (pyMerge [("session_id", Val.vs sid)] data) <;>
      simp [List.filter, h]

/-! ## C4 — chat-turn message construction from explicit history -/

theorem foldl_histAppend (history : List HistMsg) (acc : List ApiMsg) :
    history.foldl (fun acc m => if histKeep m then acc ++ [histMap m] else acc) acc
      = acc ++ replayHistory history := by
  induction history generalizing acc with
  | nil => simp [replayHistory]
  | cons m hs ih =>
      by_cases h : histKeep m <;>
        simp [List.foldl_cons, h, ih, replayHistory, List.filter_cons]

theorem buildChat_eq (sys : ApiMsg) (history : List HistMsg) (message : String) :
    buildChatMessages sys history message
      = if endsWithNewUser (sys :: replayHistory history) message
          then sys :: replayHistory history
          else (sys :: replayHistory history) ++ [{ role := "user", content := message }] := by
  unfold buildChatMessages endsWithNewUser
  rw [foldl_histAppend]
  simp

/-- C4 (counterexample): with history
`[{role: user, content: C}, {role: user, content: C}]` and new message `C`,
the constructed list ends with two trailing user messages whose content is
the new message, so "exactly one" fails. -/
theorem C4_counterexample :
    trailingUserCount
      (buildChatMessages systemPromptMsg
        [⟨some "user", some "C"⟩, ⟨some "user", some "C"⟩] "C") "C" = 2 := by
  decide

/-- C4 (amended): the constructed list replays exactly the history entries
whose role is `user` or `ai` with non-empty content (mapping `ai` to
`assistant`), appends the new user message only when the current last message
is not already an identical user message, and therefore always ends with a
user message whose content is the new message; "exactly one" trailing copy
holds except when the replayed history itself already ends with repeated
identical user entries. -/
theorem C4_chat_history_replay (sys : ApiMsg) (history : List HistMsg) (message : String) :
    buildChatMessages sys history message
      = (sys :: replayHistory history)
        ++ (if endsWithNewUser (sys :: replayHistory history) message then []
            else [{ role := "user", content := message }])
    ∧ (buildChatMessages sys history message).getLast?
        = some { role := "user", content := message } := by
  constructor
  · rw [buildChat_eq]
    by_cases h : endsWithNewUser (sys :: replayHistory history) message <;> simp [h]
  · rw [buildChat_eq]
    by_cases h : endsWithNewUser (sys :: replayHistory history) message
    · simp only [h, if_true]
      unfold endsWithNewUser at h
      cases hl : (sys :: replayHistory history).getLast? with
      | none => rw [hl] at h; simp at h
      | some last =>
          rw [hl] at h
          obtain ⟨r, c⟩ := last
          simp only [Bool.and_eq_true, beq_iff_eq] at h
          obtain ⟨hr, hc⟩ := h
          rw [hr, hc]
    · rw [if_neg h]
      exact getLast?_append_singleton _ _

/-! ## C5 — full-research article fetching -/

/-- C5 (counterexample): two organic results sharing the link `L` both appear
in the fetched article list (no deduplication), and a request with
`num_results = 25` yields 25 articles (no cap at 20). -/
theorem C5_counterexample :
    countLink (fetch_articles "2026-10-12"
        [[("title", Val.vs "A"), ("link", Val.vs "L")],
         [("title", Val.vs "B"), ("link", Val.vs "L")]] 20) "L" = 2
    ∧ (fetch_articles "2026-10-12"
        (List.replicate 25 [("link", Val.vs "L")]) 25).length = 25 := by
  constructor <;> decide

/-- C5 (amended): Agent 1 issues a single search query; the fetched articles
are exactly the first `num_results` organic results in order (links taken
verbatim, duplicates preserved), so the list length is
`min num_results (number of results)` — bounded by the request's
`num_results` (default 20), not by 20. -/
theorem C5_fetch_articles (today : String) (organic : List Rec) (num : Nat) :
    (fetch_articles today organic num).map Article.link
      = (organic.take num).map (fun it => itemGet it "link" (Val.vs "No URL"))
    ∧ (fetch_articles today organic num).length = min num organic.length := by
  constructor
  · simp only [fetch_articles, List.map_map]
    rfl
  · simp [fetch_articles]

/-! ## C6 — read fallback to the file backend -/

/-- C6 (counterexample): with the document-store backend enabled, a read on
which it raises returns an empty mapping — the file backend is not queried
and no `file` key is present, because `file_service` only exists when no
other backend was loaded. -/
theorem C6_counterexample :
    (sm_get_session ⟨true, true, false⟩ (Except.error "boom")
        (Except.error "unreachable") (some [("session_id", Val.vs "s1")])).1.isEmpty = true
    ∧ (dictGet (sm_get_session ⟨true, true, false⟩ (Except.error "boom")
        (Except.error "unreachable") (some [("session_id", Val.vs "s1")])).1 "file").isNone
        = true := by
  constructor <;> decide

/-- C6 (amended): the file backend is queried only in configurations where
`file_service` was created at startup (no document/key-value module loaded);
when it is absent, even a read on which every enabled backend raises returns
a mapping without a `file` key; and a backend that returns no record (`None`)
still occupies its key, which also prevents the file fallback. -/
theorem C6_read_fallback (cfg : SMConfig) (mg dg : Except String (Option Rec))
    (fg : Option Rec) :
    (cfg.hasFileService = false →
        (dictGet (sm_get_session cfg mg dg fg).1 "file").isNone = true)
    ∧ (cfg.hasFileService = true → cfg.mongoService = false →
        (sm_get_session cfg mg dg fg).1 = [("file", fg)])
    ∧ (cfg.hasFileService = true → cfg.mongoService = true →
        ∀ e, mg = Except.error e → (sm_get_session cfg mg dg fg).1 = [("file", fg)])
    ∧ (cfg.mongoService = true → mg = Except.ok Option.none →
        dictGet (sm_get_session cfg mg dg fg).1 "mongodb" = some Option.none
        ∧ (dictGet (sm_get_session cfg mg dg fg).1 "file").isNone = true) := by
  obtain ⟨m, u, dv⟩ := cfg
  cases m <;> cases u <;> cases dv <;> cases mg <;> cases dg <;>
    simp [sm_get_session, SMConfig.hasFileService, dictGet]

/-- C6 (witness): a configuration where the document-store module loaded but
`use_mongodb` is off, so `file_service` exists: when the document-store call
raises, the file result is returned under the `file` key. -/
theorem C6_witness :
    (sm_get_session ⟨true, false, false⟩ (Except.error "down") (Except.ok Option.none)
        (some [("session_id", Val.vs "s1")])).1
      = [("file", some [("session_id", Val.vs "s1")])] :=
  (C6_read_fallback ⟨true, false, false⟩ (Except.error "down") (Except.ok Option.none)
    (some [("session_id", Val.vs "s1")])).2.2.1 rfl rfl "down" rfl

/-! ## C7 — mutating fan-out catches per-backend failures -/

theorem smMutate_eq {α β γ : Type} (cfg : SMConfig)
    (mOp : α → Except String α) (dOp : β → Except String β) (fOp : γ → γ)
    (ma : α) (da : β) (fa : γ) :
    smMutate cfg mOp dOp fOp ma da fa
      = ((c7NewState cfg.mongoService mOp ma,
          c7NewState cfg.dynamoService dOp da,
          c7FileState cfg fOp fa),
         c7CaughtError cfg.mongoService "MongoDB" (mOp ma)
           ++ c7CaughtError cfg.dynamoService "DynamoDB" (dOp da)) := by
  obtain ⟨m, u, dv⟩ := cfg
  cases m <;> cases u <;> cases dv <;>
    cases hm : mOp ma <;> cases hd : dOp da <;>
      simp [smMutate, c7NewState, c7FileState, c7CaughtError,
        SMConfig.hasFileService, hm, hd]

theorem sm_create_session_eq (cfg : SMConfig) (mc dc : Except String Rec) (fc : Rec) :
    sm_create_session cfg mc dc fc
      = (c7CreateResults cfg mc dc fc,
         c7CaughtError cfg.mongoService "MongoDB" mc
           ++ c7CaughtError cfg.dynamoService "DynamoDB" dc) := by
  obtain ⟨m, u, dv⟩ := cfg
  cases m <;> cases u <;> cases dv <;> cases mc <;> cases dc <;>
    simp [sm_create_session, c7CreateResults, c7OkEntry, c7CaughtError,
      SMConfig.hasFileService]

/-- C7 (confirmed): for every combination of enabled backends (all eight
configurations of the module/flag booleans) and every possible outcome of
every backend adapter, each of the six mutating operations runs the enabled
backends independently: a backend whose adapter raises keeps its previous
state and contributes exactly its tagged message to the collected error list,
the other enabled backend's update still happens, a disabled backend is
untouched, the file service runs exactly in the file-only configuration
(`createSession` additionally falls back to the file record exactly when no
enabled backend produced a result), and every operation returns normally —
the embedded bodies are total functions, mirroring the source's per-backend
try/except with no re-raise; the unguarded file call cannot raise because the
`database.py` adapters contain their own error handling. -/
theorem C7_write_fanout {α β γ : Type} (cfg : SMConfig)
    (mOp : α → Except String α) (dOp : β → Except String β) (fOp : γ → γ)
    (ma : α) (da : β) (fa : γ) (mc dc : Except String Rec) (fc : Rec) :
    sm_update_session cfg mOp dOp fOp ma da fa
      = ((c7NewState cfg.mongoService mOp ma,
          c7NewState cfg.dynamoService dOp da,
          c7FileState cfg fOp fa),
         c7CaughtError cfg.mongoService "MongoDB" (mOp ma)
           ++ c7CaughtError cfg.dynamoService "DynamoDB" (dOp da))
    ∧ sm_delete_session cfg mOp dOp fOp ma da fa
      = ((c7NewState cfg.mongoService mOp ma,
          c7NewState cfg.dynamoService dOp da,
          c7FileState cfg fOp fa),
         c7CaughtError cfg.mongoService "MongoDB" (mOp ma)
           ++ c7CaughtError cfg.dynamoService "DynamoDB" (dOp da))
    ∧ sm_add_search_history cfg mOp dOp fOp ma da fa
      = ((c7NewState cfg.mongoService mOp ma,
          c7NewState cfg.dynamoService dOp da,
          c7FileState cfg fOp fa),
         c7CaughtError cfg.mongoService "MongoDB" (mOp ma)
           ++ c7CaughtError cfg.dynamoService "DynamoDB" (dOp da))
    ∧ sm_save_research cfg mOp dOp fOp ma da fa
      = ((c7NewState cfg.mongoService mOp ma,
          c7NewState cfg.dynamoService dOp da,
          c7FileState cfg fOp fa),
         c7CaughtError cfg.mongoService "MongoDB" (mOp ma)
           ++ c7CaughtError cfg.dynamoService "DynamoDB" (dOp da))
    ∧ sm_delete_saved_research cfg mOp dOp fOp ma da fa
      = ((c7NewState cfg.mongoService mOp ma,
          c7NewState cfg.dynamoService dOp da,
          c7FileState cfg fOp fa),
         c7CaughtError cfg.mongoService "MongoDB" (mOp ma)
           ++ c7CaughtError cfg.dynamoService "DynamoDB" (dOp da))
    ∧ sm_create_session cfg mc dc fc
      = (c7CreateResults cfg mc dc fc,
         c7CaughtError cfg.mongoService "MongoDB" mc
           ++ c7CaughtError cfg.dynamoService "DynamoDB" dc) :=
  ⟨smMutate_eq cfg mOp dOp fOp ma da fa,
   smMutate_eq cfg mOp dOp fOp ma da fa,
   smMutate_eq cfg mOp dOp fOp ma da fa,
   smMutate_eq cfg mOp dOp fOp ma da fa,
   smMutate_eq cfg mOp dOp fOp ma da fa,
   sm_create_session_eq cfg mc dc fc⟩

/-! ## C9 — the model-call primitive -/

/-- C9 (confirmed): `generate_llm_response` surfaces a raised API exception as
a reported error (without any retry — the definition applies `api` exactly
once), returns the stripped content when the call succeeds with non-empty
content, and returns the literal `"No response generated."` when the call
succeeds but yields no content (empty choices, missing message, missing or
empty content). -/
theorem C9_generate_llm_response (api : List ApiMsg → ℚ → Nat → Except String ApiResp)
    (msgs : List ApiMsg) (t : ℚ) (mt : Nat) :
    (∀ e, api msgs t mt = Except.error e →
        generate_llm_response api msgs t mt
          = Except.error ("OpenAI API error: " ++ e))
    ∧ (∀ resp c rest m content, api msgs t mt = Except.ok resp →
        resp.choices = c :: rest → c.message = some m → m.content = some content →
        (content == "") = false →
        generate_llm_response api msgs t mt = Except.ok (pyStripWs content))
    ∧ (∀ resp, api msgs t mt = Except.ok resp → noContent resp = true →
        generate_llm_response api msgs t mt = Except.ok "No response generated.") := by
  refine ⟨?_, ?_, ?_⟩
  · intro e h
    simp [generate_llm_response, h]
  · intro resp c rest m content h hc hm hcon hne
    simp [generate_llm_response, h, hc, hm, hcon, hne]
  · intro resp h hnc
    obtain ⟨chs⟩ := resp
    simp only [generate_llm_response, h]
    cases chs with
    | nil => rfl
    | cons c rest =>
        obtain ⟨msg⟩ := c
        cases msg with
        | none => rfl
        | some m =>
            obtain ⟨cont⟩ := m
            cases cont with
            | none => rfl
            | some s =>
                simp [noContent] at hnc
                simp [hnc]

/-- C9 (witness). -/
theorem C9_witness :
    generate_llm_response
        (fun _ _ _ => Except.ok ⟨[⟨some ⟨some "  hello  "⟩⟩]⟩) [] (0.4 : ℚ) 10
      = Except.ok (pyStripWs "  hello  ") :=
  (C9_generate_llm_response (fun _ _ _ => Except.ok ⟨[⟨some ⟨some "  hello  "⟩⟩]⟩)
      [] (0.4 : ℚ) 10).2.1
    ⟨[⟨some ⟨some "  hello  "⟩⟩]⟩ ⟨some ⟨some "  hello  "⟩⟩ [] ⟨some "  hello  "⟩
    "  hello  " rfl rfl rfl rfl rfl

/-! ## C10 — the full-research NameError -/

/-- C10 (confirmed): for every environment scoped to the names actually
defined at that point of `api/main.py`, every model stub and every article
list, `compare_and_extract` evaluates its prompt f-string to a `NameError`
on `search_query` — independently of the model parameter, so before any model
call — and consequently `full_research` fails with that `NameError` whenever
at least one article is fetched, never reaching Agent 3. -/
theorem C10_compare_extract_name_error (env : String → Option String)
    (henv : ScopedEnv env)
    (api : List ApiMsg → ℚ → Nat → Except String ApiResp)
    (articles : List Article) (today query : String) (organic : List Rec) (num : Nat)
    (hnz : (fetch_articles today organic num).isEmpty = false) :
    compare_and_extract env api articles
      = Except.error "NameError: name search_query is not defined"
    ∧ full_research env api today organic query num
      = Except.error "NameError: name search_query is not defined" := by
  have hsq : env "search_query" = Option.none := by
    cases h : env "search_query" with
    | none => rfl
    | some s =>
        have hmem := henv "search_query" s h
        have : ¬ ("search_query" ∈ compareAndExtractScopeNames) := by decide
        exact absurd hmem this
  constructor
  · simp [compare_and_extract, hsq]
  · simp [full_research, compare_and_extract, hsq, hnz]

/-- C10 (witness). -/
theorem C10_witness :
    full_research (fun _ => Option.none)
        (fun _ _ _ => Except.error "never called") "2026-10-12"
        [[("link", Val.vs "L")]] "q" 1
      = Except.error "NameError: name search_query is not defined" :=
  (C10_compare_extract_name_error (fun _ => Option.none)
      (fun n s h => absurd h (by simp))
      (fun _ _ _ => Except.error "never called") [] "2026-10-12" "q"
      [[("link", Val.vs "L")]] 1 (by decide)).2

/-! ## C3 — lemmas about the suggestion scanner -/

theorem chop_length : ∀ (p s s1 : List Char), chop p s = some s1 →
    s1.length + p.length = s.length := by
  intro p
  induction p with
  | nil =>
      intro s s1 h
      simp [chop] at h
      simp [h]
  | cons pc ps ih =>
      intro s s1 h
      cases s with
      | nil => simp [chop] at h
      | cons c cs =>
          by_cases hc : pc == c
          · simp only [chop, hc, if_true] at h
            have := ih cs s1 h
            simp only [List.length_cons]
            omega
          · simp [chop, hc] at h

theorem chop_append_self : ∀ (p s : List Char), chop p (p ++ s) = some s := by
  intro p
  induction p with
  | nil => intro s; rfl
  | cons pc ps ih => intro s; simp [chop, ih]

theorem isPrefixOf_append_self : ∀ (p s : List Char), p.isPrefixOf (p ++ s) = true := by
  intro p
  induction p with
  | nil => intro s; cases s <;> rfl
  | cons pc ps ih => intro s; simp [List.isPrefixOf, ih]

theorem chop_marker_head_ne (c : Char) (t : List Char) (h : ¬ c = '*') :
    chop rqMarker (c :: t) = Option.none := by
  have hb : ('*' == c) = false := by
    simp only [beq_eq_false_iff_ne, ne_eq]
    exact fun hc => h hc.symm
  simp [rqMarker, chop, hb]

theorem matchAt_none_of_chop (s : List Char) (h : chop rqMarker s = Option.none) :
    matchAt s = Option.none := by
  unfold matchAt
  rw [h]

theorem dropWhile_len_le {A : Type} (p : A → Bool) :
    ∀ l : List A, (l.dropWhile p).length ≤ l.length := by
  intro l
  induction l with
  | nil => simp
  | cons a t ih =>
      by_cases h : p a
      · simp only [List.dropWhile_cons, h, if_true, List.length_cons]
        omega
      · simp [List.dropWhile_cons, h]

theorem takeUntilStop_cons (c : Char) (t : List Char) :
    takeUntilStop (c :: t)
      = if rqStop t then ([c], t)
        else (c :: (takeUntilStop t).1, (takeUntilStop t).2) := rfl

theorem takeUntil_rest_lt : ∀ (c : Char) (t : List Char),
    (takeUntilStop (c :: t)).2.length < (c :: t).length := by
  intro c t
  induction t generalizing c with
  | nil => simp [takeUntilStop_cons, rqStop]
  | cons b t2 ih =>
      rw [takeUntilStop_cons]
      by_cases h : rqStop (b :: t2)
      · simp [h]
      · have ihb := ih b
        simp only [h, if_false, Bool.false_eq_true, List.length_cons] at *
        omega

theorem matchGroup_rest_le (s3 : List Char) (gr : List Char × List Char)
    (h : matchGroup s3 = some gr) : gr.2.length ≤ s3.length := by
  unfold matchGroup at h
  split at h
  · rename_i c4 t4 hs4
    simp only [Option.some.injEq] at h
    subst h
    have hlt := takeUntil_rest_lt c4 t4
    have hdw := dropWhile_len_le pyIsSpace s3
    rw [hs4] at hdw
    simp only [List.length_cons] at hlt hdw
    omega
  · split at h
    · rename_i c h5
      simp only [Option.some.injEq] at h
      subst h
      simp
    · simp at h

theorem matchColon_rest_lt (s2 : List Char) (gr : List Char × List Char)
    (h : matchColon s2 = some gr) : gr.2.length < s2.length := by
  unfold matchColon at h
  split at h
  · simp at h
  · rename_i s3 h2
    have hs3 := chop_length _ _ _ h2
    have hg := matchGroup_rest_le s3 gr h
    have h3 : ([':', '*', '*'] : List Char).length = 3 := rfl
    omega

theorem matchDigits_rest_lt (s1 : List Char) (gr : List Char × List Char)
    (h : matchDigits s1 = some gr) : gr.2.length < s1.length := by
  unfold matchDigits at h
  split at h
  · simp at h
  · have hc := matchColon_rest_lt _ _ h
    have hdw := dropWhile_len_le Char.isDigit s1
    omega

theorem matchAt_rest_lt (s : List Char) (gr : List Char × List Char)
    (h : matchAt s = some gr) : gr.2.length < s.length := by
  unfold matchAt at h
  split at h
  · simp at h
  · rename_i s1 h1
    have hs1 := chop_length _ _ _ h1
    have h20 : rqMarker.length = 20 := rfl
    have hd := matchDigits_rest_lt _ _ h
    omega

theorem scanRQ_fuel_eq : ∀ (n f g : Nat) (s : List Char),
    s.length ≤ n → s.length < f → s.length < g → scanRQ f s = scanRQ g s := by
  intro n
  induction n with
  | zero =>
      intro f g s hs hf hg
      have hnil : s = [] := List.eq_nil_of_length_eq_zero (Nat.le_zero.mp hs)
      subst hnil
      cases f with
      | zero => omega
      | succ f =>
          cases g with
          | zero => omega
          | succ g => rfl
  | succ n ih =>
      intro f g s hs hf hg
      cases s with
      | nil =>
          cases f with
          | zero => omega
          | succ f =>
              cases g with
              | zero => omega
              | succ g => rfl
      | cons c t =>
          cases f with
          | zero => omega
          | succ f =>
              cases g with
              | zero => omega
              | succ g =>
                  simp only [List.length_cons] at hs hf hg
                  cases hm : matchAt (c :: t) with
                  | none =>
                      simp only [scanRQ, hm]
                      exact ih f g t (by omega) (by omega) (by omega)
                  | some gr =>
                      simp only [scanRQ, hm]
                      have hlt := matchAt_rest_lt _ _ hm
                      simp only [List.length_cons] at hlt
                      rw [ih f g gr.2 (by omega) (by omega) (by omega)]

theorem scanRQ_eq_findRQ (f : Nat) (s : List Char) (h : s.length < f) :
    scanRQ f s = findRQ s :=
  scanRQ_fuel_eq s.length f (s.length + 1) s (Nat.le_refl _) h (Nat.lt_succ_self _)

theorem scanRQ_succ_match (f : Nat) (s g rest : List Char)
    (hs : s ≠ []) (hm : matchAt s = some (g, rest)) :
    scanRQ (f + 1) s = g :: scanRQ f rest := by
  cases s with
  | nil => exact absurd rfl hs
  | cons c t => simp [scanRQ, hm]

theorem findRQ_cons_none (c : Char) (t : List Char)
    (h : chop rqMarker (c :: t) = Option.none) :
    findRQ (c :: t) = findRQ t := by
  have hm : matchAt (c :: t) = Option.none := matchAt_none_of_chop _ h
  simp [findRQ, scanRQ, hm]

theorem findRQ_skip_plain : ∀ (r X : List Char),
    (∀ c ∈ r, plainChar c = true) → findRQ (r ++ X) = findRQ X := by
  intro r
  induction r with
  | nil => intro X _; rfl
  | cons c r2 ih =>
      intro X hr
      have hc : plainChar c = true := hr c (by simp)
      have hcs : ¬ c = '*' := by
        simp only [plainChar, Bool.and_eq_true, bne_iff_ne, ne_eq,
          Bool.not_eq_true', beq_eq_false_iff_ne] at hc
        exact hc.2
      rw [List.cons_append, findRQ_cons_none c (r2 ++ X) (chop_marker_head_ne c _ hcs)]
      exact ih X (fun x hx => hr x (by simp [hx]))

theorem rqStop_cons_false (b : Char) (Y : List Char) (hb : ¬ b = '\n') :
    rqStop (b :: Y) = false := by
  have hbeq : ('\n' == b) = false := by
    simp only [beq_eq_false_iff_ne, ne_eq]
    exact fun hc => hb hc.symm
  have hbeq2 : (b == '\n') = false := by
    simp only [beq_eq_false_iff_ne, ne_eq]
    exact hb
  cases Y with
  | nil => simp [rqStop, rationaleMarker, List.isPrefixOf, hbeq, hbeq2]
  | cons y ys => simp [rqStop, rationaleMarker, List.isPrefixOf, hbeq]

theorem takeUntil_append : ∀ (q junk : List Char), q ≠ [] →
    (∀ c ∈ q, plainChar c = true) → rqStop junk = true →
    takeUntilStop (q ++ junk) = (q, junk) := by
  intro q
  induction q with
  | nil => intro junk h; exact absurd rfl h
  | cons a q2 ih =>
      intro junk _ hq hstop
      cases q2 with
      | nil => simp [takeUntilStop_cons, hstop]
      | cons b q3 =>
          have hb : plainChar b = true := hq b (by simp)
          have hbn : ¬ b = '\n' := by
            simp only [plainChar, Bool.and_eq_true, Bool.not_eq_true',
              beq_eq_false_iff_ne, ne_eq] at hb
            exact hb.1
          have hstep : rqStop (b :: (q3 ++ junk)) = false := rqStop_cons_false b _ hbn
          have hrec := ih junk (by simp)
            (fun c hc => hq c (List.mem_cons_of_mem a hc)) hstop
          simp only [List.cons_append] at hrec ⊢
          rw [takeUntilStop_cons, if_neg (by simp [hstep]), hrec]

theorem matchAt_rqBlock (q r rest : List Char) (hq : q ≠ [])
    (hh : pyIsSpace (q.headD ' ') = false) (hqp : ∀ c ∈ q, plainChar c = true) :
    matchAt (rqBlock (q, r) ++ rest) = some (q, ratTail ++ r ++ '\n' :: rest) := by
  obtain ⟨qh, qt, rfl⟩ := List.exists_cons_of_ne_nil hq
  have hqh : pyIsSpace qh = false := by simpa using hh
  have hstop : rqStop (ratTail ++ r ++ '\n' :: rest) = true := by
    have hpre : rationaleMarker.isPrefixOf (ratTail ++ r ++ '\n' :: rest) = true := by
      have he : ratTail ++ r ++ '\n' :: rest
          = rationaleMarker ++ ([':', '*', '*', ' '] ++ (r ++ '\n' :: rest)) := by
        simp [ratTail]
      rw [he]
      exact isPrefixOf_append_self _ _
    unfold rqStop
    rw [hpre]
    rfl
  have htu : takeUntilStop ((qh :: qt) ++ (ratTail ++ r ++ '\n' :: rest))
      = (qh :: qt, ratTail ++ r ++ '\n' :: rest) :=
    takeUntil_append _ _ (by simp) hqp hstop
  have hshape : rqBlock (qh :: qt, r) ++ rest
      = rqMarker ++ ('1' :: ':' :: '*' :: '*' :: ' ' ::
          ((qh :: qt) ++ (ratTail ++ r ++ '\n' :: rest))) := by
    simp [rqBlock, rqHeader]
  rw [hshape]
  have step1 : matchAt (rqMarker ++ ('1' :: ':' :: '*' :: '*' :: ' ' ::
        ((qh :: qt) ++ (ratTail ++ r ++ '\n' :: rest))))
      = matchDigits ('1' :: ':' :: '*' :: '*' :: ' ' ::
        ((qh :: qt) ++ (ratTail ++ r ++ '\n' :: rest))) := by
    unfold matchAt
    rw [chop_append_self]
  have step2 : matchDigits ('1' :: ':' :: '*' :: '*' :: ' ' ::
        ((qh :: qt) ++ (ratTail ++ r ++ '\n' :: rest)))
      = matchGroup (' ' :: ((qh :: qt) ++ (ratTail ++ r ++ '\n' :: rest))) := rfl
  have step3 : matchGroup (' ' :: ((qh :: qt) ++ (ratTail ++ r ++ '\n' :: rest)))
      = some (takeUntilStop ((qh :: qt) ++ (ratTail ++ r ++ '\n' :: rest))) := by
    unfold matchGroup
    rw [show List.dropWhile pyIsSpace
        (' ' :: ((qh :: qt) ++ (ratTail ++ r ++ '\n' :: rest)))
        = List.dropWhile pyIsSpace ((qh :: qt) ++ (ratTail ++ r ++ '\n' :: rest)) from rfl]
    rw [List.cons_append, List.dropWhile_cons_of_neg (by simp [hqh])]
  rw [step1, step2, step3, htu]

theorem findRQ_skip : ∀ (junk X : List Char),
    (∀ i, i < junk.length → chop rqMarker (junk.drop i ++ X) = Option.none) →
    findRQ (junk ++ X) = findRQ X := by
  intro junk
  induction junk with
  | nil => intro X _; rfl
  | cons c j ih =>
      intro X h
      have h0 : chop rqMarker ((c :: j) ++ X) = Option.none := by
        simpa using h 0 (by simp)
      rw [List.cons_append, findRQ_cons_none _ _ (by simpa using h0)]
      exact ih X (fun i hi => by
        simpa [List.drop_succ_cons] using h (i + 1) (by simpa using Nat.succ_lt_succ hi))

theorem findRQ_mkStructured : ∀ (l : List (List Char × List Char)), wfQA l = true →
    findRQ (mkStructured l) = l.map Prod.fst := by
  intro l
  induction l with
  | nil => intro _; rfl
  | cons qa rest ih =>
      intro hwf
      obtain ⟨q, r⟩ := qa
      simp only [wfQA, List.all_cons, Bool.and_eq_true] at hwf
      obtain ⟨⟨⟨⟨⟨hq0, hq1⟩, hq2⟩, hq3⟩, hr1⟩, hrest⟩ := hwf
      have hqne : q ≠ [] := by
        intro hc
        subst hc
        simp at hq0
      have hqplain : ∀ c ∈ q, plainChar c = true := fun c hc =>
        (List.all_eq_true.mp hq1) c hc
      have hqh : pyIsSpace (q.headD ' ') = false := by
        simpa using hq2
      have hrplain : ∀ c ∈ r, plainChar c = true := fun c hc =>
        (List.all_eq_true.mp hr1) c hc
      have hm := matchAt_rqBlock q r (mkStructured rest) hqne hqh hqplain
      have hne : rqBlock (q, r) ++ mkStructured rest ≠ [] := by
        simp [rqBlock, rqHeader, rqMarker]
      have hstruct : mkStructured ((q, r) :: rest) = rqBlock (q, r) ++ mkStructured rest := rfl
      rw [hstruct]
      rw [show findRQ (rqBlock (q, r) ++ mkStructured rest)
          = scanRQ ((rqBlock (q, r) ++ mkStructured rest).length + 1)
              (rqBlock (q, r) ++ mkStructured rest) from rfl]
      rw [scanRQ_succ_match _ _ _ _ hne hm]
      have hlen : (ratTail ++ r ++ '\n' :: mkStructured rest).length
          < (rqBlock (q, r) ++ mkStructured rest).length := by
        simp [rqBlock, rqHeader, ratTail, rqMarker, rationaleMarker,
          List.length_append]
        omega
      rw [scanRQ_eq_findRQ _ _ hlen]
      simp only [List.map_cons]
      congr 1
      rw [show ratTail ++ r ++ '\n' :: mkStructured rest
          = ratTail ++ (r ++ '\n' :: mkStructured rest) from by
        rw [List.append_assoc]]
      rw [findRQ_skip ratTail (r ++ '\n' :: mkStructured rest) (by
        intro i hi
        have hi16 : i < 16 := by simpa [ratTail, rationaleMarker] using hi
        interval_cases i <;> rfl)]
      rw [findRQ_skip_plain r ('\n' :: mkStructured rest) hrplain]
      rw [findRQ_cons_none '\n' (mkStructured rest) rfl]
      exact ih (by simpa [wfQA] using hrest)

theorem filterMap_if_eq_map_filter {A B : Type} (P : A → Bool) (f : A → B) :
    ∀ raw : List A,
      raw.filterMap (fun x => if P x then some (f x) else Option.none)
        = (raw.filter P).map f := by
  intro raw
  induction raw with
  | nil => rfl
  | cons a t ih =>
      by_cases h : P a <;> simp [List.filterMap_cons, List.filter_cons, h, ih]

theorem fallback_eq_spec (s : List Char) :
    fallbackSuggestions s = fallbackSpecLines s := by
  show List.filter (fun t => decide (20 < t.length))
      (List.filterMap (fun line =>
        if !(pyStripL line).isEmpty && !(("**".data).isPrefixOf line) then
          some (stripCharsL suggStripChars line)
        else Option.none) (splitNl s))
    = fallbackSpecLines s
  rw [filterMap_if_eq_map_filter]
  rfl

theorem dropWhile_eq_self_of_headD {A : Type} (p : A → Bool) (d : A) (l : List A)
    (h : p (l.headD d) = false) : l.dropWhile p = l := by
  cases l with
  | nil => rfl
  | cons a t => simp [List.dropWhile_cons, show p a = false from h]

theorem pyStripL_eq_self (q : List Char) (h1 : pyIsSpace (q.headD ' ') = false)
    (h2 : pyIsSpace (q.reverse.headD ' ') = false) : pyStripL q = q := by
  unfold pyStripL
  rw [dropWhile_eq_self_of_headD _ _ _ h1]
  rw [dropWhile_eq_self_of_headD _ _ _ h2]
  exact List.reverse_reverse q

theorem firstTier_of_trimmed (qs : List (List Char))
    (h : ∀ q ∈ qs, q ≠ [] ∧ pyStripL q = q) :
    qs.filterMap (fun q =>
      let t := pyStripL q
      if t.isEmpty then Option.none else some t) = qs := by
  induction qs with
  | nil => rfl
  | cons q t ih =>
      obtain ⟨hne, hstrip⟩ := h q (by simp)
      have hf : q.isEmpty = false := by
        cases q with
        | nil => exact absurd rfl hne
        | cons a b => rfl
      simp only [List.filterMap_cons, hstrip, hf, Bool.false_eq_true, if_false]
      rw [ih (fun x hx => h x (by simp [hx]))]

/-! ## C3 — the suggestion-extraction claim -/

/-- C3 (confirmed): the returned suggestion list never exceeds three items;
on a fully structured reply the first tier extracts exactly the question
texts (the rationale blocks are excluded and never scanned as questions);
and whenever the first tier yields nothing the result is the line-splitting
fallback — non-blank lines not starting with `**`, stripped of
bullet/number/punctuation characters, kept only when strictly longer than 20
characters — truncated to three. -/
theorem C3_suggestion_extraction :
    (∀ s : List Char, (parse_suggestions s).length ≤ 3)
    ∧ (∀ l : List (List Char × List Char), wfQA l = true →
        parse_suggestions (mkStructured l) = (l.map Prod.fst).take 3)
    ∧ (∀ s : List Char, firstTierSuggestions s = [] →
        parse_suggestions s = (fallbackSpecLines s).take 3) := by
  refine ⟨?_, ?_, ?_⟩
  · intro s
    unfold parse_suggestions
    by_cases h : (firstTierSuggestions s).isEmpty <;>
      simp [h, List.length_take]
  · intro l hwf
    have hfind := findRQ_mkStructured l hwf
    have hqs : ∀ q ∈ l.map Prod.fst, q ≠ [] ∧ pyStripL q = q := by
      intro q hqmem
      obtain ⟨qa, hqa, rfl⟩ := List.mem_map.mp hqmem
      have hall := (List.all_eq_true.mp hwf) qa hqa
      simp only [Bool.and_eq_true] at hall
      obtain ⟨⟨⟨⟨h0, h1⟩, h2⟩, h3⟩, _⟩ := hall
      constructor
      · intro hc
        rw [hc] at h0
        simp at h0
      · exact pyStripL_eq_self _ (by simpa using h2) (by simpa using h3)
    unfold parse_suggestions firstTierSuggestions
    rw [hfind, firstTier_of_trimmed _ hqs]
    by_cases hl : (l.map Prod.fst).isEmpty
    · have hnil : l = [] := by
        cases l with
        | nil => rfl
        | cons a t => simp at hl
      subst hnil
      rfl
    · show (if (List.map Prod.fst l).isEmpty = true
          then fallbackSuggestions (mkStructured l)
          else List.map Prod.fst l).take 3
        = (List.map Prod.fst l).take 3
      rw [if_neg hl]
  · intro s h
    unfold parse_suggestions
    rw [h]
    show (if (List.isEmpty []) = true then fallbackSuggestions s
        else ([] : List (List Char))).take 3
      = (fallbackSpecLines s).take 3
    rw [if_pos (show ([] : List (List Char)).isEmpty = true from rfl),
      fallback_eq_spec]

/-- C3 (witness): a structured two-question reply is parsed to exactly the
two question texts. -/
theorem C3_witness :
    parse_suggestions (mkStructured
        [(("How does graphene affect battery cost").data,
          ("Costs matter for adoption.").data),
         (("What are the recycling implications").data,
          ("Sustainability is the rationale.").data)])
      = (([(("How does graphene affect battery cost").data,
            ("Costs matter for adoption.").data),
           (("What are the recycling implications").data,
            ("Sustainability is the rationale.").data)]).map Prod.fst).take 3 :=
  C3_suggestion_extraction.2.1 _ (by decide)

end Aria
